import Mathlib

/-
Formal model of the route-finding core of `src/encuentra-rutas.py`
(class `SistemaTransporte`).  Numeric edge attributes are modelled by
rationals.  The `networkx` undirected graph is modelled by association
lists of nodes and edges; an edge between `u` and `v` is stored once and
found under either orientation, exactly as `nx.Graph` stores one shared
attribute dictionary per unordered pair.  Failures that the Python code
reports by returning a tuple of four `None`s (distinguished only by the
logged message) are modelled by the typed `RutaError`.
-/

/- Batteries marks the rational operations `@[irreducible]`, which
prevents `decide` from evaluating the model on concrete inputs; restore
the default reducibility (the definitions are unchanged). -/
set_option allowUnsafeReducibility true
attribute [semireducible] Rat.add Rat.mul Rat.inv Rat.ofScientific

/-- Attributes of a station node, as set by `G.add_node` in
`_procesar_datos` (lines 74-81).  Every field is optional because
`networkx.Graph.add_edge` silently creates an attribute-less node when an
edge endpoint is not yet in the graph. -/
structure NodeData where
  nombre : Option String
  pos : Option (Rat × Rat)
  tipo : Option String
  servicios : Option (List String)
deriving Repr, DecidableEq, Inhabited

/-- Attributes of a route edge, as set by `G.add_edge` in
`_procesar_datos` (lines 84-93).  `combinado` is absent until a query
with the "combinado" criterion attaches it (line 186).  `distancia` is
kept optional to mirror the `d.get("distancia", 0)` reads, although
`_procesar_datos` always stores it. -/
structure EdgeData where
  tiempo : Rat
  costo : Rat
  distancia : Option Rat
  medio : String
  frecuencia : Rat
  combinado : Option Rat
deriving Repr, DecidableEq, Inhabited

/-- The `networkx` undirected graph `self.G`. -/
structure Grafo where
  nodes : List (String × NodeData)
  edges : List (String × String × EdgeData)
deriving Repr, DecidableEq, Inhabited

/-- One record of `datos["estaciones"]`. -/
structure Estacion where
  id : String
  nombre : String
  lon : Rat
  lat : Rat
  tipo : Option String
  servicios : Option (List String)
deriving Repr, DecidableEq

/-- One record of `datos["rutas"]`. -/
structure RutaRec where
  origen : String
  destino : String
  tiempo : Rat
  costo : Rat
  distancia : Option Rat
  medio : Option String
  frecuencia : Option Rat
deriving Repr, DecidableEq

/-- `validar_estacion` (line 138): membership of the id in `G.nodes`. -/
def validarEstacion (g : Grafo) (id : String) : Bool :=
  g.nodes.any (fun p => p.1 == id)

/-- Whether a stored edge joins `u` and `v` (either orientation). -/
def coincideArista (u v : String) (t : String × String × EdgeData) : Bool :=
  (t.1 == u && t.2.1 == v) || (t.1 == v && t.2.1 == u)

/-- `G.get_edge_data(u, v)`: the attribute record of the `u`-`v` edge. -/
def getEdgeData (g : Grafo) (u v : String) : Option EdgeData :=
  (g.edges.find? (coincideArista u v)).map (fun t => t.2.2)

/-- `G.add_node`: insert a node, overwriting the attributes when the id
is already present. -/
def agregarNodo (g : Grafo) (id : String) (datos : NodeData) : Grafo :=
  if g.nodes.any (fun p => p.1 == id) then
    { g with nodes := g.nodes.map (fun p => if p.1 == id then (id, datos) else p) }
  else
    { g with nodes := g.nodes ++ [(id, datos)] }

/-- The attribute-less node that `add_edge` creates for a missing endpoint. -/
def nodoVacio : NodeData := ⟨none, none, none, none⟩

def asegurarNodo (g : Grafo) (id : String) : Grafo :=
  if validarEstacion g id then g else { g with nodes := g.nodes ++ [(id, nodoVacio)] }

/-- `G.add_edge`: both endpoints are added to the node set when missing
(`networkx` semantics); an existing edge between the pair has its
attributes overwritten, otherwise the edge is appended. -/
def agregarArista (g : Grafo) (u v : String) (datos : EdgeData) : Grafo :=
  let g2 := asegurarNodo (asegurarNodo g u) v
  if g2.edges.any (coincideArista u v) then
    { g2 with edges := g2.edges.map (fun t =>
        if coincideArista u v t then (t.1, t.2.1, datos) else t) }
  else
    { g2 with edges := g2.edges ++ [(u, v, datos)] }

/-- The `G.add_node` call of `_procesar_datos` (lines 74-81) for one
station record, with the documented attribute defaults. -/
def pasoEstacion (g : Grafo) (e : Estacion) : Grafo :=
  agregarNodo g e.id
    ⟨some e.nombre, some (e.lon, e.lat), some (e.tipo.getD "normal"),
     some (e.servicios.getD [])⟩

/-- The `G.add_edge` call of `_procesar_datos` (lines 84-93) for one
route record, with the documented attribute defaults. -/
def pasoRuta (g : Grafo) (r : RutaRec) : Grafo :=
  agregarArista g r.origen r.destino
    ⟨r.tiempo, r.costo, some (r.distancia.getD 0), r.medio.getD "bus",
     r.frecuencia.getD 15, none⟩

/-- `_procesar_datos` (lines 67-93): add every station as a node, then
every route as an edge. -/
def procesarDatos (estaciones : List Estacion) (rutas : List RutaRec) : Grafo :=
  rutas.foldl pasoRuta (estaciones.foldl pasoEstacion ⟨[], []⟩)

/-- The neighbour ids of `u` (the ids adjacent to `u` in `G.adj`). -/
def vecinos (g : Grafo) (u : String) : List String :=
  g.edges.filterMap (fun t =>
    if t.1 == u then some t.2.1 else if t.2.1 == u then some t.1 else none)

def esAdyacente (g : Grafo) (u v : String) : Bool :=
  (getEdgeData g u v).isSome

/-- The attribute record of the `u`-`v` edge; callers only use it on
adjacent pairs, where it is the shared `networkx` edge dictionary. -/
def aristaDatos (g : Grafo) (u v : String) : EdgeData :=
  (getEdgeData g u v).getD default

/-- Consecutive members of the list are adjacent in the graph. -/
def esCadena (g : Grafo) : List String → Bool
  | u :: v :: resto => esAdyacente g u v && esCadena g (v :: resto)
  | _ => true

/-- `p` is a walk through `g` from `o` to `d`. -/
def esRuta (g : Grafo) (o d : String) (p : List String) : Bool :=
  p.head? == some o && p.getLast? == some d && esCadena g p

/-- Total weight of a station sequence: the sum of the edge weights of
its consecutive pairs (the sum `nx.astar_path_length` computes). -/
def pesoCamino (g : Grafo) (w : EdgeData → Rat) : List String → Rat
  | u :: v :: resto => w (aristaDatos g u v) + pesoCamino g w (v :: resto)
  | _ => 0

/-- Extract a minimum-key element from a list, keeping the earliest one
on ties and preserving the order of the rest (heap pop order). -/
def extractMinBy {α : Type} (k : α → Rat) : List α → Option (α × List α)
  | [] => none
  | a :: resto =>
    match extractMinBy k resto with
    | none => some (a, [])
    | some (b, quedan) => if k b < k a then some (b, a :: quedan) else some (a, resto)

/-- A frontier entry of the Dijkstra search: accumulated weight, current
node, and the forward path from the source ending at that node. -/
abbrev EntradaDijkstra := Rat × String × List String

/-- `nx.dijkstra_path` / `nx.dijkstra_path_length`: best-first search
keyed by accumulated weight.  Returns the accumulated weight at the
target together with the path. -/
def dijkstraAux (g : Grafo) (w : EdgeData → Rat) (destino : String) :
    Nat → List String → List EntradaDijkstra → Option (Rat × List String)
  | 0, _, _ => none
  | fuel + 1, visitados, frontera =>
    match extractMinBy (fun e => e.1) frontera with
    | none => none
    | some ((d, u, camino), resto) =>
      if u ∈ visitados then dijkstraAux g w destino fuel visitados resto
      else if u = destino then some (d, camino)
      else
        dijkstraAux g w destino fuel (u :: visitados)
          (resto ++ (vecinos g u).filterMap (fun v =>
            if v ∈ visitados then none
            else some (d + w (aristaDatos g u v), v, camino ++ [v])))

/-- Fuel bound: the search pops at most one entry per step and pushes at
most one entry per edge direction plus the initial entry. -/
def combustible (g : Grafo) : Nat := g.nodes.length + 2 * g.edges.length + 1

def buscarDijkstra (g : Grafo) (w : EdgeData → Rat) (origen destino : String) :
    Option (Rat × List String) :=
  dijkstraAux g w destino (combustible g) [] [(0, origen, [origen])]

/-- A frontier entry of the A* search: priority (accumulated weight plus
heuristic of the current node), accumulated weight, current node, path. -/
abbrev EntradaAstar := Rat × Rat × String × List String

/-- `nx.astar_path`: the same best-first search with the heuristic value
of the reached node added to the priority key.  `encontrar_ruta` passes
no heuristic, which `networkx` defaults to the zero function. -/
def astarAux (g : Grafo) (w : EdgeData → Rat) (h : String → Rat) (destino : String) :
    Nat → List String → List EntradaAstar → Option (Rat × List String)
  | 0, _, _ => none
  | fuel + 1, visitados, frontera =>
    match extractMinBy (fun e => e.1) frontera with
    | none => none
    | some ((_, d, u, camino), resto) =>
      if u ∈ visitados then astarAux g w h destino fuel visitados resto
      else if u = destino then some (d, camino)
      else
        astarAux g w h destino fuel (u :: visitados)
          (resto ++ (vecinos g u).filterMap (fun v =>
            if v ∈ visitados then none
            else some (d + w (aristaDatos g u v) + h v,
                       d + w (aristaDatos g u v), v, camino ++ [v])))

def buscarAstar (g : Grafo) (w : EdgeData → Rat) (h : String → Rat) (origen destino : String) :
    Option (Rat × List String) :=
  astarAux g w h destino (combustible g) [] [(h origen, 0, origen, [origen])]

/-- The side effect of the "combinado" criterion (lines 182-188): attach
`0.5*tiempo + 0.3*costo + 0.2*distancia` (distance read with default 0
when absent) to every edge of the graph. -/
def atribuirCombinado (g : Grafo) : Grafo :=
  { g with edges := g.edges.map (fun t =>
      (t.1, t.2.1,
        { t.2.2 with
          combinado := some (0.5 * t.2.2.tiempo + 0.3 * t.2.2.costo + 0.2 * t.2.2.distancia.getD 0) })) }

/-- One row of the DataFrame built by `_generar_detalles_ruta`
(lines 232-243). -/
structure Segmento where
  segmento : String
  origenId : String
  destinoId : String
  origenNombre : String
  destinoNombre : String
  tiempo : Rat
  costo : Rat
  distancia : Option Rat
  medio : String
  frecuencia : Rat
deriving Repr, DecidableEq

def nodoDatos (g : Grafo) (id : String) : Option NodeData :=
  (g.nodes.find? (fun p => p.1 == id)).map (fun p => p.2)

/-- `self.G.nodes[id]["nombre"]`: absent when the node is missing or has
no `nombre` attribute. -/
def nombreNodo (g : Grafo) (id : String) : Option String :=
  (nodoDatos g id).bind (fun d => d.nombre)

/-- `_generar_detalles_ruta` (lines 217-245).  A missing edge or a node
without a `nombre` attribute raises in Python and is caught by the
enclosing generic handler, hence the `Option` result. -/
def generarDetallesAux (g : Grafo) : List String → Nat → Option (List Segmento)
  | [], _ => some []
  | [_], _ => some []
  | o :: d :: resto, i =>
    match getEdgeData g o d, nombreNodo g o, nombreNodo g d,
        generarDetallesAux g (d :: resto) (i + 1) with
    | some e, some nombreO, some nombreD, some siguientes =>
      some (⟨toString (i + 1), o, d, nombreO, nombreD,
             e.tiempo, e.costo, e.distancia, e.medio, e.frecuencia⟩ :: siguientes)
    | _, _, _, _ => none

def generarDetallesRuta (g : Grafo) (camino : List String) : Option (List Segmento) :=
  generarDetallesAux g camino 0

/-- The distinct failure outcomes of `encontrar_ruta`; the Python code
returns `(None, None, None, None)` for all of them and identifies the
case only in the logged message. -/
inductive RutaError where
  | estacionNoEncontrada (id : String)
  | criterioInvalido
  | algoritmoInvalido
  | sinRuta
  | errorInesperado
deriving Repr, DecidableEq

/-- The successful return value of `encontrar_ruta`:
`(camino_optimo, valor_optimo, etiqueta_valor, detalles_ruta)`. -/
structure RutaResult where
  camino : List String
  valor : Rat
  etiqueta : String
  detalles : List Segmento
deriving Repr, DecidableEq

/-- Lines 193-215: algorithm dispatch inside the `try` block.  Dijkstra
takes the value accumulated by the search; `nx.astar_path_length`
recomputes the total as the sum of edge weights along the A* path. -/
def ejecutarAlgoritmo (g : Grafo) (w : EdgeData → Rat)
    (etiqueta origen destino algoritmo : String) : Except RutaError RutaResult :=
  if algoritmo = "dijkstra" then
    match buscarDijkstra g w origen destino with
    | none => .error .sinRuta
    | some (valor, camino) =>
      match generarDetallesRuta g camino with
      | none => .error .errorInesperado
      | some detalles => .ok ⟨camino, valor, etiqueta, detalles⟩
  else if algoritmo = "astar" then
    match buscarAstar g w (fun _ => 0) origen destino with
    | none => .error .sinRuta
    | some (_, camino) =>
      match generarDetallesRuta g camino with
      | none => .error .errorInesperado
      | some detalles => .ok ⟨camino, pesoCamino g w camino, etiqueta, detalles⟩
  else .error .algoritmoInvalido

/-- `encontrar_ruta` (lines 142-215).  The second component is the graph
after the call, recording the `combinado` attachment side effect. -/
def encontrarRuta (g : Grafo) (origen destino criterio algoritmo : String) :
    Except RutaError RutaResult × Grafo :=
  if validarEstacion g origen = false then (.error (.estacionNoEncontrada origen), g)
  else if validarEstacion g destino = false then (.error (.estacionNoEncontrada destino), g)
  else if origen = destino then (.ok ⟨[origen], 0, "Sin movimiento", []⟩, g)
  else if criterio = "costo" then
    (ejecutarAlgoritmo g (fun e => e.costo) "Costo total ($)" origen destino algoritmo, g)
  else if criterio = "tiempo" then
    (ejecutarAlgoritmo g (fun e => e.tiempo) "Tiempo total (min)" origen destino algoritmo, g)
  else if criterio = "distancia" then
    (ejecutarAlgoritmo g (fun e => e.distancia.getD 1) "Distancia total (km)"
      origen destino algoritmo, g)
  else if criterio = "combinado" then
    (ejecutarAlgoritmo (atribuirCombinado g) (fun e => e.combinado.getD 1) "Valor combinado"
      origen destino algoritmo, atribuirCombinado g)
  else (.error .criterioInvalido, g)

instance {ε α : Type} [DecidableEq ε] [DecidableEq α] : DecidableEq (Except ε α) := fun x y =>
  match x, y with
  | .ok a, .ok b => decidable_of_iff (a = b) (by simp)
  | .error a, .error b => decidable_of_iff (a = b) (by simp)
  | .ok _, .error _ => isFalse (fun h => Except.noConfusion h)
  | .error _, .ok _ => isFalse (fun h => Except.noConfusion h)

/-! Concrete data of the spec's testable scenario. -/

def estacionesC1 : List Estacion :=
  [⟨"A", "A", 0, 0, none, none⟩, ⟨"B", "B", 0, 1, none, none⟩, ⟨"C", "C", 1, 1, none, none⟩]

def rutasC1 : List RutaRec :=
  [⟨"A", "B", 5, 2, none, none, none⟩, ⟨"B", "C", 3, 4, none, none, none⟩,
   ⟨"A", "C", 10, 1, none, none, none⟩]

def grafoC1 : Grafo := procesarDatos estacionesC1 rutasC1

/-- C1: on the concrete graph with stations A, B, C and routes A-B
(time 5, cost 2), B-C (time 3, cost 4), A-C (time 10, cost 1), the
Dijkstra query by time returns the path [A,B,C] with total 8, and the
Dijkstra query by cost returns the path [A,C] with total 1. -/
theorem c1_escenario_concreto :
    ((encontrarRuta grafoC1 "A" "C" "tiempo" "dijkstra").1.map
        (fun r => (r.camino, r.valor)) = .ok (["A", "B", "C"], 8)) ∧
    ((encontrarRuta grafoC1 "A" "C" "costo" "dijkstra").1.map
        (fun r => (r.camino, r.valor)) = .ok (["A", "C"], 1)) := by
  decide

/-- C2: for every graph, every station X present in it and arbitrary
criterion and algorithm strings, a query from X to X returns the
single-element path [X] with total value 0 and an empty segment list,
and leaves the graph untouched (no traversal is performed). -/
theorem c2_ruta_propia (g : Grafo) (X criterio algoritmo : String)
    (h : validarEstacion g X = true) :
    encontrarRuta g X X criterio algoritmo =
      (.ok ⟨[X], 0, "Sin movimiento", []⟩, g) := by
  simp [encontrarRuta, h]

theorem c2_ruta_propia_witness :
    validarEstacion grafoC1 "A" = true ∧
    encontrarRuta grafoC1 "A" "A" "tiempo" "dijkstra" =
      (.ok ⟨["A"], 0, "Sin movimiento", []⟩, grafoC1) :=
  ⟨by decide, c2_ruta_propia grafoC1 "A" "tiempo" "dijkstra" (by decide)⟩

/-- C10: the self-route check runs before criterion and algorithm
validation, so a query from a present station X to itself succeeds with
the self-route result for every criterion string and algorithm string,
including unrecognized ones, instead of failing with an invalid
criterion or algorithm error. -/
theorem c10_ruta_propia_antes_de_validar (g : Grafo) (X criterio algoritmo : String)
    (h : validarEstacion g X = true) :
    (encontrarRuta g X X criterio algoritmo).1 =
      .ok ⟨[X], 0, "Sin movimiento", []⟩ := by
  simp [encontrarRuta, h]

theorem c10_ruta_propia_antes_de_validar_witness :
    validarEstacion grafoC1 "A" = true ∧
    (encontrarRuta grafoC1 "A" "A" "criterioDesconocido" "algoritmoDesconocido").1 =
      .ok ⟨["A"], 0, "Sin movimiento", []⟩ :=
  ⟨by decide,
   c10_ruta_propia_antes_de_validar grafoC1 "A" "criterioDesconocido" "algoritmoDesconocido"
     (by decide)⟩

/-- C6: a query whose origin (resp. whose destination) is not a station
of the graph fails with the unknown-station error naming that id, before
any traversal or weight computation: the result carries no components
and the graph is returned unchanged. -/
theorem c6_estacion_desconocida (g : Grafo) (origen destino criterio algoritmo : String) :
    (validarEstacion g origen = false →
      encontrarRuta g origen destino criterio algoritmo =
        (.error (.estacionNoEncontrada origen), g)) ∧
    (validarEstacion g origen = true → validarEstacion g destino = false →
      encontrarRuta g origen destino criterio algoritmo =
        (.error (.estacionNoEncontrada destino), g)) := by
  constructor
  · intro h
    simp [encontrarRuta, h]
  · intro h1 h2
    simp [encontrarRuta, h1, h2]

theorem c6_estacion_desconocida_witness :
    (encontrarRuta grafoC1 "Z" "C" "tiempo" "dijkstra" =
      (.error (.estacionNoEncontrada "Z"), grafoC1)) ∧
    (encontrarRuta grafoC1 "A" "Z" "tiempo" "dijkstra" =
      (.error (.estacionNoEncontrada "Z"), grafoC1)) :=
  ⟨(c6_estacion_desconocida grafoC1 "Z" "C" "tiempo" "dijkstra").1 (by decide),
   (c6_estacion_desconocida grafoC1 "A" "Z" "tiempo" "dijkstra").2 (by decide) (by decide)⟩

/-- C7 counterexample: with origin and destination both the existing
station A and the unrecognized criterion "velocidad", the query succeeds
with the self-route result instead of failing with the invalid-criterion
error, so the claim is false for the origin-destination pair (A, A). -/
theorem c7_contraejemplo :
    (encontrarRuta grafoC1 "A" "A" "velocidad" "dijkstra").1 =
      .ok ⟨["A"], 0, "Sin movimiento", []⟩ ∧
    (encontrarRuta grafoC1 "A" "A" "velocidad" "dijkstra").1 ≠
      .error .criterioInvalido := by
  decide

/-- C7 amended: for every query between two distinct existing stations
whose criterion is not one of the four recognized criteria, the query
fails with the invalid-criterion error before any path computation, and
the graph is returned unchanged. -/
theorem c7_criterio_invalido (g : Grafo) (origen destino criterio algoritmo : String)
    (ho : validarEstacion g origen = true) (hd : validarEstacion g destino = true)
    (hne : origen ≠ destino)
    (hc : criterio ∉ (["tiempo", "costo", "distancia", "combinado"] : List String)) :
    encontrarRuta g origen destino criterio algoritmo = (.error .criterioInvalido, g) := by
  simp only [List.mem_cons, List.not_mem_nil, or_false, not_or] at hc
  obtain ⟨h1, h2, h3, h4⟩ := hc
  simp [encontrarRuta, ho, hd, hne, h1, h2, h3, h4]

theorem c7_criterio_invalido_witness :
    encontrarRuta grafoC1 "A" "C" "velocidad" "dijkstra" =
      (.error .criterioInvalido, grafoC1) :=
  c7_criterio_invalido grafoC1 "A" "C" "velocidad" "dijkstra"
    (by decide) (by decide) (by decide) (by decide)

/-! C5: graph construction with a route whose endpoint is not among the
station records.  `networkx.Graph.add_edge` does not validate endpoints:
it silently creates the missing node, so `_procesar_datos` never fails
for this reason. -/

def estacionesC5 : List Estacion := [⟨"A", "Alpha", 0, 0, none, none⟩]

def rutasC5 : List RutaRec := [⟨"A", "B", 5, 2, none, none, none⟩]

def grafoC5 : Grafo := procesarDatos estacionesC5 rutasC5

/-- C5 counterexample: building from one station A and one route A-B
whose destination B is not among the station records does not fail —
a graph is produced, the route is present as an edge, and B has been
silently created as an attribute-less node. -/
theorem c5_contraejemplo :
    validarEstacion grafoC5 "B" = true ∧
    nodoDatos grafoC5 "B" = some nodoVacio ∧
    getEdgeData grafoC5 "A" "B" ≠ none := by
  decide

lemma nodes_agregarArista (g : Grafo) (u v : String) (dat : EdgeData) :
    (agregarArista g u v dat).nodes = (asegurarNodo (asegurarNodo g u) v).nodes := by
  by_cases h : (asegurarNodo (asegurarNodo g u) v).edges.any (coincideArista u v) = true <;>
    simp [agregarArista, h]

lemma validar_agregarArista_eq (g : Grafo) (u v x : String) (dat : EdgeData) :
    validarEstacion (agregarArista g u v dat) x =
      validarEstacion (asegurarNodo (asegurarNodo g u) v) x := by
  unfold validarEstacion
  rw [nodes_agregarArista]

lemma validar_asegurarNodo_mono (g : Grafo) (id x : String)
    (h : validarEstacion g x = true) : validarEstacion (asegurarNodo g id) x = true := by
  unfold asegurarNodo
  split
  · exact h
  · unfold validarEstacion at h ⊢
    simp [List.any_append, h]

lemma validar_asegurarNodo_self (g : Grafo) (id : String) :
    validarEstacion (asegurarNodo g id) id = true := by
  unfold asegurarNodo
  split
  · assumption
  · simp [validarEstacion, List.any_append]

lemma validar_agregarArista_mono (g : Grafo) (u v x : String) (dat : EdgeData)
    (h : validarEstacion g x = true) :
    validarEstacion (agregarArista g u v dat) x = true := by
  rw [validar_agregarArista_eq]
  exact validar_asegurarNodo_mono _ _ _ (validar_asegurarNodo_mono _ _ _ h)

lemma validar_agregarArista_extremos (g : Grafo) (u v : String) (dat : EdgeData) :
    validarEstacion (agregarArista g u v dat) u = true ∧
    validarEstacion (agregarArista g u v dat) v = true := by
  constructor
  · rw [validar_agregarArista_eq]
    exact validar_asegurarNodo_mono _ _ _ (validar_asegurarNodo_self g u)
  · rw [validar_agregarArista_eq]
    exact validar_asegurarNodo_self _ v

lemma validar_foldl_pasoRuta_mono : ∀ (l : List RutaRec) (g : Grafo) (x : String),
    validarEstacion g x = true → validarEstacion (l.foldl pasoRuta g) x = true := by
  intro l
  induction l with
  | nil => intro g x h; exact h
  | cons r0 l ih =>
    intro g x h
    simp only [List.foldl_cons]
    exact ih _ _ (validar_agregarArista_mono _ _ _ _ _ h)

lemma validar_extremos_foldl : ∀ (l : List RutaRec) (g : Grafo) (r : RutaRec), r ∈ l →
    validarEstacion (l.foldl pasoRuta g) r.origen = true ∧
    validarEstacion (l.foldl pasoRuta g) r.destino = true := by
  intro l
  induction l with
  | nil => intro g r hr; cases hr
  | cons r0 l ih =>
    intro g r hr
    simp only [List.foldl_cons]
    rcases List.mem_cons.mp hr with h | h
    · subst h
      exact ⟨validar_foldl_pasoRuta_mono l _ _ (validar_agregarArista_extremos g _ _ _).1,
             validar_foldl_pasoRuta_mono l _ _ (validar_agregarArista_extremos g _ _ _).2⟩
    · exact ih _ _ h

/-- C5 amended: graph construction never fails because a route record
references an origin or destination id absent from the station records;
a graph is always produced, in which every endpoint referenced by a
route record is present as a node (a missing one is silently created
without name or position, per `networkx.Graph.add_edge`). -/
theorem c5_construccion_total (ests : List Estacion) (ruts : List RutaRec)
    (r : RutaRec) (hr : r ∈ ruts) :
    validarEstacion (procesarDatos ests ruts) r.origen = true ∧
    validarEstacion (procesarDatos ests ruts) r.destino = true := by
  unfold procesarDatos
  exact validar_extremos_foldl ruts _ r hr

theorem c5_construccion_total_witness :
    validarEstacion grafoC5 "A" = true ∧ validarEstacion grafoC5 "B" = true :=
  c5_construccion_total estacionesC5 rutasC5 ⟨"A", "B", 5, 2, none, none, none⟩ (by decide)

/-! Walk and weight bookkeeping lemmas for the searches. -/

@[simp] lemma esCadena_nil (g : Grafo) : esCadena g [] = true := rfl

@[simp] lemma esCadena_single (g : Grafo) (x : String) : esCadena g [x] = true := rfl

@[simp] lemma esCadena_cons_cons (g : Grafo) (x y : String) (l : List String) :
    esCadena g (x :: y :: l) = (esAdyacente g x y && esCadena g (y :: l)) := rfl

@[simp] lemma pesoCamino_nil (g : Grafo) (w : EdgeData → Rat) : pesoCamino g w [] = 0 := rfl

@[simp] lemma pesoCamino_single (g : Grafo) (w : EdgeData → Rat) (x : String) :
    pesoCamino g w [x] = 0 := rfl

@[simp] lemma pesoCamino_cons_cons (g : Grafo) (w : EdgeData → Rat) (x y : String)
    (l : List String) :
    pesoCamino g w (x :: y :: l) = w (aristaDatos g x y) + pesoCamino g w (y :: l) := rfl

lemma esCadena_concat (g : Grafo) : ∀ (p : List String) (u v : String),
    p.getLast? = some u → esAdyacente g u v = true → esCadena g p = true →
    esCadena g (p ++ [v]) = true := by
  intro p
  induction p with
  | nil => intro u v h; simp at h
  | cons x xs ih =>
    intro u v hlast hady hcad
    cases xs with
    | nil =>
      simp only [List.getLast?_singleton, Option.some.injEq] at hlast
      subst hlast
      simp [hady]
    | cons y ys =>
      rw [List.getLast?_cons_cons] at hlast
      simp only [esCadena_cons_cons, Bool.and_eq_true] at hcad
      have hconc := ih u v hlast hady hcad.2
      simpa [hcad.1] using hconc

lemma pesoCamino_concat (g : Grafo) (w : EdgeData → Rat) : ∀ (p : List String) (u v : String),
    p.getLast? = some u →
    pesoCamino g w (p ++ [v]) = pesoCamino g w p + w (aristaDatos g u v) := by
  intro p
  induction p with
  | nil => intro u v h; simp at h
  | cons x xs ih =>
    intro u v hlast
    cases xs with
    | nil =>
      simp only [List.getLast?_singleton, Option.some.injEq] at hlast
      subst hlast
      simp
    | cons y ys =>
      rw [List.getLast?_cons_cons] at hlast
      have hconc := ih u v hlast
      simp only [List.cons_append] at hconc ⊢
      rw [pesoCamino_cons_cons, pesoCamino_cons_cons, hconc, add_assoc]

lemma head?_concat_of_head? {p : List String} {s v : String} (h : p.head? = some s) :
    (p ++ [v]).head? = some s := by
  cases p with
  | nil => simp at h
  | cons x xs => simpa using h

lemma extractMinBy_mem {α : Type} (k : α → Rat) : ∀ (l : List α) (a : α) (r : List α),
    extractMinBy k l = some (a, r) → a ∈ l ∧ ∀ x ∈ r, x ∈ l := by
  intro l
  induction l with
  | nil => intro a r h; simp [extractMinBy] at h
  | cons b l ih =>
    intro a r h
    rw [extractMinBy] at h
    cases hrec : extractMinBy k l with
    | none =>
      rw [hrec] at h
      cases h
      exact ⟨List.mem_cons_self _ _, by simp⟩
    | some pr =>
      obtain ⟨c, rem⟩ := pr
      rw [hrec] at h
      have h2 : (if k c < k b then some (c, b :: rem) else some (b, l)) = some (a, r) := h
      by_cases hlt : k c < k b
      · rw [if_pos hlt] at h2
        have h3 := (Option.some.inj h2).symm
        have ha : a = c := congrArg Prod.fst h3
        have hr : r = b :: rem := congrArg Prod.snd h3
        rw [ha, hr]
        have hc := ih c rem hrec
        refine ⟨List.mem_cons_of_mem _ hc.1, ?_⟩
        intro x hx
        rcases List.mem_cons.mp hx with hx | hx
        · exact hx ▸ List.mem_cons_self _ _
        · exact List.mem_cons_of_mem _ (hc.2 x hx)
      · rw [if_neg hlt] at h2
        have h3 := (Option.some.inj h2).symm
        have ha : a = b := congrArg Prod.fst h3
        have hr : r = l := congrArg Prod.snd h3
        rw [ha, hr]
        exact ⟨List.mem_cons_self _ _, fun x hx => List.mem_cons_of_mem _ hx⟩

lemma esAdyacente_of_mem_vecinos (g : Grafo) (u v : String) (h : v ∈ vecinos g u) :
    esAdyacente g u v = true := by
  unfold vecinos at h
  rcases List.mem_filterMap.mp h with ⟨t, ht, hft⟩
  unfold esAdyacente getEdgeData
  rw [Option.isSome_map', List.find?_isSome]
  refine ⟨t, ht, ?_⟩
  unfold coincideArista
  by_cases h1 : t.1 == u
  · rw [if_pos h1] at hft
    simp only [Option.some.injEq] at hft
    simp [h1, hft]
  · rw [if_neg h1] at hft
    by_cases h2 : t.2.1 == u
    · rw [if_pos h2] at hft
      simp only [Option.some.injEq] at hft
      simp [h2, hft]
    · rw [if_neg h2] at hft
      cases hft

/-- Invariant of a Dijkstra frontier entry: its stored path is a walk of
the graph starting at the source and ending at the entry's node, and its
stored value is that walk's total weight. -/
def InvEntrada (g : Grafo) (w : EdgeData → Rat) (s : String) (ent : EntradaDijkstra) : Prop :=
  ent.2.2.head? = some s ∧ ent.2.2.getLast? = some ent.2.1 ∧
    esCadena g ent.2.2 = true ∧ ent.1 = pesoCamino g w ent.2.2

lemma dijkstraAux_sound (g : Grafo) (w : EdgeData → Rat) (s t : String) :
    ∀ (fuel : Nat) (vis : List String) (front : List EntradaDijkstra),
    (∀ ent ∈ front, InvEntrada g w s ent) →
    ∀ d p, dijkstraAux g w t fuel vis front = some (d, p) →
    p.head? = some s ∧ p.getLast? = some t ∧ esCadena g p = true ∧ d = pesoCamino g w p := by
  intro fuel
  induction fuel with
  | zero => intro vis front _ d p h; exact absurd h (by simp [dijkstraAux])
  | succ fuel ih =>
    intro vis front hinv d p h
    rw [dijkstraAux] at h
    cases hex : extractMinBy (fun e : EntradaDijkstra => e.1) front with
    | none => rw [hex] at h; exact absurd h (by simp)
    | some pr =>
      obtain ⟨⟨d0, u0, p0⟩, resto⟩ := pr
      rw [hex] at h
      have hmem := extractMinBy_mem _ front _ _ hex
      have hinv0 : InvEntrada g w s (d0, u0, p0) := hinv _ hmem.1
      have hinvR : ∀ ent ∈ resto, InvEntrada g w s ent := fun ent he => hinv _ (hmem.2 ent he)
      have h2 : (if u0 ∈ vis then dijkstraAux g w t fuel vis resto
          else if u0 = t then some (d0, p0)
          else dijkstraAux g w t fuel (u0 :: vis)
            (resto ++ (vecinos g u0).filterMap (fun v =>
              if v ∈ vis then none
              else some (d0 + w (aristaDatos g u0 v), v, p0 ++ [v])))) = some (d, p) := h
      by_cases hv : u0 ∈ vis
      · rw [if_pos hv] at h2
        exact ih vis resto hinvR d p h2
      · rw [if_neg hv] at h2
        by_cases ht : u0 = t
        · rw [if_pos ht] at h2
          have h3 := Option.some.inj h2
          have hd : d0 = d := congrArg Prod.fst h3
          have hp : p0 = p := congrArg Prod.snd h3
          subst ht
          rw [← hd, ← hp]
          exact ⟨hinv0.1, hinv0.2.1, hinv0.2.2.1, hinv0.2.2.2⟩
        · rw [if_neg ht] at h2
          refine ih _ _ ?_ d p h2
          intro ent he
          rcases List.mem_append.mp he with he | he
          · exact hinvR _ he
          · rcases List.mem_filterMap.mp he with ⟨v, hvmem, hfv⟩
            by_cases hvv : v ∈ vis
            · rw [if_pos hvv] at hfv; cases hfv
            · rw [if_neg hvv] at hfv
              have h4 := (Option.some.inj hfv).symm
              subst h4
              have hady := esAdyacente_of_mem_vecinos g u0 v hvmem
              have hp0 : p0.head? = some s := hinv0.1
              have hl0 : p0.getLast? = some u0 := hinv0.2.1
              refine ⟨?_, ?_, ?_, ?_⟩
              · exact head?_concat_of_head? hp0
              · exact List.getLast?_concat p0
              · exact esCadena_concat g p0 u0 v hl0 hady hinv0.2.2.1
              · show d0 + w (aristaDatos g u0 v) = pesoCamino g w (p0 ++ [v])
                rw [pesoCamino_concat g w p0 u0 v hl0]
                exact congrArg (fun x => x + w (aristaDatos g u0 v)) hinv0.2.2.2

lemma buscarDijkstra_sound (g : Grafo) (w : EdgeData → Rat) (o t : String) (d : Rat)
    (p : List String) (h : buscarDijkstra g w o t = some (d, p)) :
    p.head? = some o ∧ p.getLast? = some t ∧ esCadena g p = true ∧ d = pesoCamino g w p := by
  refine dijkstraAux_sound g w o t (combustible g) [] [(0, o, [o])] ?_ d p h
  intro ent he
  simp only [List.mem_singleton] at he
  subst he
  exact ⟨rfl, rfl, rfl, rfl⟩

lemma buscarDijkstra_esRuta (g : Grafo) (w : EdgeData → Rat) (o t : String) (d : Rat)
    (p : List String) (h : buscarDijkstra g w o t = some (d, p)) : esRuta g o t p = true := by
  have hs := buscarDijkstra_sound g w o t d p h
  simp [esRuta, hs.1, hs.2.1, hs.2.2.1]

lemma extractMinBy_map {α β : Type} (f : α → β) (k : β → Rat) (k2 : α → Rat)
    (hk : ∀ x, k (f x) = k2 x) : ∀ (l : List α),
    extractMinBy k (l.map f) =
      (extractMinBy k2 l).map (fun pr => (f pr.1, pr.2.map f)) := by
  intro l
  induction l with
  | nil => rfl
  | cons a l ih =>
    rw [List.map_cons, extractMinBy, extractMinBy, ih]
    cases hrec : extractMinBy k2 l with
    | none => rfl
    | some pr =>
      obtain ⟨c, rem⟩ := pr
      simp only [Option.map_some']
      show (if k (f c) < k (f a) then some (f c, f a :: rem.map f) else some (f a, l.map f)) =
        Option.map (fun pr => (f pr.1, pr.2.map f))
          (if k2 c < k2 a then some (c, a :: rem) else some (a, l))
      rw [hk c, hk a]
      by_cases hlt : k2 c < k2 a
      · rw [if_pos hlt, if_pos hlt]; rfl
      · rw [if_neg hlt, if_neg hlt]; rfl

/-- The A* frontier entry corresponding to a Dijkstra entry when the
heuristic is identically zero: the priority equals the distance. -/
def aEntradaAstar (ent : EntradaDijkstra) : EntradaAstar := (ent.1, ent)

/-- With the zero heuristic (the `networkx` default when no heuristic is
passed, as in `encontrar_ruta`), the A* search performs exactly the
Dijkstra search: same pops, same expansions, same result. -/
lemma astarAux_cero (g : Grafo) (w : EdgeData → Rat) (t : String) :
    ∀ (fuel : Nat) (vis : List String) (front : List EntradaDijkstra),
    astarAux g w (fun _ => 0) t fuel vis (front.map aEntradaAstar) =
      dijkstraAux g w t fuel vis front := by
  intro fuel
  induction fuel with
  | zero => intro vis front; rfl
  | succ fuel ih =>
    intro vis front
    rw [astarAux, dijkstraAux]
    rw [extractMinBy_map aEntradaAstar (fun e : EntradaAstar => e.1)
      (fun e : EntradaDijkstra => e.1) (fun x => rfl) front]
    cases hrec : extractMinBy (fun e : EntradaDijkstra => e.1) front with
    | none => rfl
    | some pr =>
      obtain ⟨⟨d0, u0, p0⟩, resto⟩ := pr
      simp only [Option.map_some']
      show (if u0 ∈ vis then astarAux g w (fun _ => 0) t fuel vis (resto.map aEntradaAstar)
            else if u0 = t then some (d0, p0)
            else astarAux g w (fun _ => 0) t fuel (u0 :: vis)
              (resto.map aEntradaAstar ++ (vecinos g u0).filterMap (fun v =>
                if v ∈ vis then none
                else some (d0 + w (aristaDatos g u0 v) + 0,
                           d0 + w (aristaDatos g u0 v), v, p0 ++ [v])))) =
          (if u0 ∈ vis then dijkstraAux g w t fuel vis resto
            else if u0 = t then some (d0, p0)
            else dijkstraAux g w t fuel (u0 :: vis)
              (resto ++ (vecinos g u0).filterMap (fun v =>
                if v ∈ vis then none
                else some (d0 + w (aristaDatos g u0 v), v, p0 ++ [v]))))
      by_cases hv : u0 ∈ vis
      · rw [if_pos hv, if_pos hv]
        exact ih vis resto
      · rw [if_neg hv, if_neg hv]
        by_cases ht : u0 = t
        · rw [if_pos ht, if_pos ht]
        · rw [if_neg ht, if_neg ht]
          rw [← ih (u0 :: vis) (resto ++ (vecinos g u0).filterMap (fun v =>
            if v ∈ vis then none
            else some (d0 + w (aristaDatos g u0 v), v, p0 ++ [v])))]
          congr 1
          rw [List.map_append]
          congr 1
          rw [List.map_filterMap]
          refine List.filterMap_congr ?_
          intro v hvm
          by_cases hvv : v ∈ vis
          · simp [hvv]
          · simp [hvv, aEntradaAstar]

lemma buscarAstar_cero (g : Grafo) (w : EdgeData → Rat) (o t : String) :
    buscarAstar g w (fun _ => 0) o t = buscarDijkstra g w o t := by
  have h := astarAux_cero g w t (combustible g) [] [(0, o, [o])]
  exact h

/-! Dispatch lemmas: how `encontrar_ruta` reduces for each recognized
criterion once both stations are validated and differ. -/

lemma encontrarRuta_costo (g : Grafo) (origen destino algoritmo : String)
    (ho : validarEstacion g origen = true) (hd : validarEstacion g destino = true)
    (hne : origen ≠ destino) :
    encontrarRuta g origen destino "costo" algoritmo =
      (ejecutarAlgoritmo g (fun e => e.costo) "Costo total ($)" origen destino algoritmo, g) := by
  unfold encontrarRuta
  rw [ho, hd]
  rw [if_neg (by decide : ¬ (true = false)), if_neg (by decide : ¬ (true = false)),
    if_neg hne, if_pos rfl]

lemma encontrarRuta_tiempo (g : Grafo) (origen destino algoritmo : String)
    (ho : validarEstacion g origen = true) (hd : validarEstacion g destino = true)
    (hne : origen ≠ destino) :
    encontrarRuta g origen destino "tiempo" algoritmo =
      (ejecutarAlgoritmo g (fun e => e.tiempo) "Tiempo total (min)" origen destino algoritmo, g) := by
  unfold encontrarRuta
  rw [ho, hd]
  rw [if_neg (by decide : ¬ (true = false)), if_neg (by decide : ¬ (true = false)),
    if_neg hne, if_neg (by decide : ¬ ("tiempo" = "costo")), if_pos rfl]

lemma encontrarRuta_distancia (g : Grafo) (origen destino algoritmo : String)
    (ho : validarEstacion g origen = true) (hd : validarEstacion g destino = true)
    (hne : origen ≠ destino) :
    encontrarRuta g origen destino "distancia" algoritmo =
      (ejecutarAlgoritmo g (fun e => e.distancia.getD 1) "Distancia total (km)"
        origen destino algoritmo, g) := by
  unfold encontrarRuta
  rw [ho, hd]
  rw [if_neg (by decide : ¬ (true = false)), if_neg (by decide : ¬ (true = false)),
    if_neg hne, if_neg (by decide : ¬ ("distancia" = "costo")),
    if_neg (by decide : ¬ ("distancia" = "tiempo")), if_pos rfl]

lemma encontrarRuta_combinado (g : Grafo) (origen destino algoritmo : String)
    (ho : validarEstacion g origen = true) (hd : validarEstacion g destino = true)
    (hne : origen ≠ destino) :
    encontrarRuta g origen destino "combinado" algoritmo =
      (ejecutarAlgoritmo (atribuirCombinado g) (fun e => e.combinado.getD 1) "Valor combinado"
        origen destino algoritmo, atribuirCombinado g) := by
  unfold encontrarRuta
  rw [ho, hd]
  rw [if_neg (by decide : ¬ (true = false)), if_neg (by decide : ¬ (true = false)),
    if_neg hne, if_neg (by decide : ¬ ("combinado" = "costo")),
    if_neg (by decide : ¬ ("combinado" = "tiempo")),
    if_neg (by decide : ¬ ("combinado" = "distancia")), if_pos rfl]

/-! The "combinado" attachment preserves the adjacency structure. -/

lemma getEdgeData_atribuir (g : Grafo) (u v : String) :
    getEdgeData (atribuirCombinado g) u v =
      (getEdgeData g u v).map (fun e =>
        { e with combinado := some (0.5 * e.tiempo + 0.3 * e.costo + 0.2 * e.distancia.getD 0) }) := by
  unfold getEdgeData atribuirCombinado
  rw [List.find?_map]
  have hcomp : (coincideArista u v ∘ (fun t : String × String × EdgeData =>
      (t.1, t.2.1, { t.2.2 with
        combinado := some (0.5 * t.2.2.tiempo + 0.3 * t.2.2.costo + 0.2 * t.2.2.distancia.getD 0) }))) =
      coincideArista u v := funext fun t => rfl
  rw [hcomp]
  cases g.edges.find? (coincideArista u v) <;> rfl

lemma esAdyacente_atribuir (g : Grafo) (u v : String) :
    esAdyacente (atribuirCombinado g) u v = esAdyacente g u v := by
  unfold esAdyacente
  rw [getEdgeData_atribuir]
  exact Option.isSome_map'

lemma esCadena_atribuir (g : Grafo) : ∀ p : List String,
    esCadena (atribuirCombinado g) p = esCadena g p := by
  intro p
  induction p with
  | nil => rfl
  | cons x xs ih =>
    cases xs with
    | nil => rfl
    | cons y ys =>
      rw [esCadena_cons_cons, esCadena_cons_cons, esAdyacente_atribuir, ih]

lemma esRuta_atribuir (g : Grafo) (o d : String) (p : List String) :
    esRuta (atribuirCombinado g) o d p = esRuta g o d p := by
  unfold esRuta
  rw [esCadena_atribuir]

/-- When the graph holds no walk from origin to destination, both
algorithm branches report the no-route failure. -/
lemma ejecutar_sin_ruta (g : Grafo) (w : EdgeData → Rat) (et origen destino algoritmo : String)
    (hnopath : ¬ ∃ p, esRuta g origen destino p = true)
    (halg : algoritmo = "dijkstra" ∨ algoritmo = "astar") :
    ejecutarAlgoritmo g w et origen destino algoritmo = .error .sinRuta := by
  have hnone : buscarDijkstra g w origen destino = none := by
    cases hb : buscarDijkstra g w origen destino with
    | none => rfl
    | some pr =>
      obtain ⟨d, p⟩ := pr
      exact absurd ⟨p, buscarDijkstra_esRuta g w origen destino d p hb⟩ hnopath
  rcases halg with h | h
  · subst h
    unfold ejecutarAlgoritmo
    rw [if_pos rfl, hnone]
  · subst h
    unfold ejecutarAlgoritmo
    rw [if_neg (by decide : ¬ ("astar" = "dijkstra")), if_pos rfl, buscarAstar_cero, hnone]

/-- C8: for every valid query between distinct existing stations with a
recognized criterion, when the graph contains no walk from origin to
destination the query fails with the no-route error, for both the
dijkstra and the astar algorithm. -/
theorem c8_sin_camino (g : Grafo) (origen destino criterio : String)
    (ho : validarEstacion g origen = true) (hd : validarEstacion g destino = true)
    (hne : origen ≠ destino)
    (hc : criterio = "tiempo" ∨ criterio = "costo" ∨ criterio = "distancia" ∨
      criterio = "combinado")
    (hnopath : ¬ ∃ p, esRuta g origen destino p = true) :
    (encontrarRuta g origen destino criterio "dijkstra").1 = .error .sinRuta ∧
    (encontrarRuta g origen destino criterio "astar").1 = .error .sinRuta := by
  have hnopath2 : ¬ ∃ p, esRuta (atribuirCombinado g) origen destino p = true := by
    intro hex
    obtain ⟨p, hp⟩ := hex
    rw [esRuta_atribuir] at hp
    exact hnopath ⟨p, hp⟩
  rcases hc with h | h | h | h <;> subst h
  · refine ⟨?_, ?_⟩
    · rw [encontrarRuta_tiempo g origen destino "dijkstra" ho hd hne]
      exact ejecutar_sin_ruta g _ _ origen destino "dijkstra" hnopath (Or.inl rfl)
    · rw [encontrarRuta_tiempo g origen destino "astar" ho hd hne]
      exact ejecutar_sin_ruta g _ _ origen destino "astar" hnopath (Or.inr rfl)
  · refine ⟨?_, ?_⟩
    · rw [encontrarRuta_costo g origen destino "dijkstra" ho hd hne]
      exact ejecutar_sin_ruta g _ _ origen destino "dijkstra" hnopath (Or.inl rfl)
    · rw [encontrarRuta_costo g origen destino "astar" ho hd hne]
      exact ejecutar_sin_ruta g _ _ origen destino "astar" hnopath (Or.inr rfl)
  · refine ⟨?_, ?_⟩
    · rw [encontrarRuta_distancia g origen destino "dijkstra" ho hd hne]
      exact ejecutar_sin_ruta g _ _ origen destino "dijkstra" hnopath (Or.inl rfl)
    · rw [encontrarRuta_distancia g origen destino "astar" ho hd hne]
      exact ejecutar_sin_ruta g _ _ origen destino "astar" hnopath (Or.inr rfl)
  · refine ⟨?_, ?_⟩
    · rw [encontrarRuta_combinado g origen destino "dijkstra" ho hd hne]
      exact ejecutar_sin_ruta _ _ _ origen destino "dijkstra" hnopath2 (Or.inl rfl)
    · rw [encontrarRuta_combinado g origen destino "astar" ho hd hne]
      exact ejecutar_sin_ruta _ _ _ origen destino "astar" hnopath2 (Or.inr rfl)

/-! C8 witness data: two stations and no routes at all. -/

def estacionesC8 : List Estacion :=
  [⟨"A", "Alpha", 0, 0, none, none⟩, ⟨"B", "Beta", 0, 1, none, none⟩]

def grafoC8 : Grafo := procesarDatos estacionesC8 []

lemma sin_camino_grafoC8 : ¬ ∃ p, esRuta grafoC8 "A" "B" p = true := by
  intro hex
  obtain ⟨p, hp⟩ := hex
  have hedges : grafoC8.edges = [] := by decide
  match p with
  | [] => simp [esRuta] at hp
  | [x] =>
    simp [esRuta] at hp
    first
    | exact absurd hp (by decide)
    | exact absurd hp.1 (by decide)
    | exact absurd hp.2 (by decide)
    | exact absurd (hp.1.symm.trans hp.2) (by decide)
  | x :: y :: r =>
    have : esAdyacente grafoC8 x y = false := by
      simp [esAdyacente, getEdgeData, hedges]
    simp [esRuta, this] at hp

theorem c8_sin_camino_witness :
    (encontrarRuta grafoC8 "A" "B" "tiempo" "dijkstra").1 = .error .sinRuta ∧
    (encontrarRuta grafoC8 "A" "B" "tiempo" "astar").1 = .error .sinRuta :=
  c8_sin_camino grafoC8 "A" "B" "tiempo" (by decide) (by decide) (by decide)
    (Or.inl rfl) sin_camino_grafoC8

/-- With the zero heuristic, the A* branch returns exactly the Dijkstra
path; its total (recomputed as the edge-weight sum along that path, as
`nx.astar_path_length` does) equals the Dijkstra accumulated total. -/
lemma ejecutar_dijkstra_astar (g : Grafo) (w : EdgeData → Rat) (et origen destino : String)
    (r1 r2 : RutaResult)
    (h1 : ejecutarAlgoritmo g w et origen destino "dijkstra" = .ok r1)
    (h2 : ejecutarAlgoritmo g w et origen destino "astar" = .ok r2) :
    r1.valor = r2.valor ∧ r1.camino = r2.camino := by
  unfold ejecutarAlgoritmo at h1 h2
  rw [if_pos rfl] at h1
  rw [if_neg (by decide : ¬ ("astar" = "dijkstra")), if_pos rfl, buscarAstar_cero] at h2
  cases hb : buscarDijkstra g w origen destino with
  | none =>
    rw [hb] at h1
    exact absurd h1 (by simp)
  | some pr =>
    obtain ⟨val, cam⟩ := pr
    rw [hb] at h1 h2
    have h1b : (match generarDetallesRuta g cam with
      | none => Except.error RutaError.errorInesperado
      | some detalles => Except.ok (⟨cam, val, et, detalles⟩ : RutaResult)) = Except.ok r1 := h1
    have h2b : (match generarDetallesRuta g cam with
      | none => Except.error RutaError.errorInesperado
      | some detalles =>
          Except.ok (⟨cam, pesoCamino g w cam, et, detalles⟩ : RutaResult)) = Except.ok r2 := h2
    cases hdet : generarDetallesRuta g cam with
    | none =>
      rw [hdet] at h1b
      exact absurd h1b (by simp)
    | some dets =>
      rw [hdet] at h1b h2b
      have e1 := (Except.ok.inj h1b).symm
      have e2 := (Except.ok.inj h2b).symm
      rw [e1, e2]
      exact ⟨(buscarDijkstra_sound g w origen destino val cam hb).2.2.2, rfl⟩

/-- C4: whenever both the dijkstra and the astar run of the same query
succeed, they return the same total value and the very same path (hence
paths of equal total weight). -/
theorem c4_equivalencia (g : Grafo) (origen destino criterio : String) (r1 r2 : RutaResult)
    (h1 : (encontrarRuta g origen destino criterio "dijkstra").1 = .ok r1)
    (h2 : (encontrarRuta g origen destino criterio "astar").1 = .ok r2) :
    r1.valor = r2.valor ∧ r1.camino = r2.camino := by
  cases ho : validarEstacion g origen with
  | false =>
    unfold encontrarRuta at h1
    rw [ho, if_pos rfl] at h1
    exact absurd h1 (by simp)
  | true =>
    cases hd : validarEstacion g destino with
    | false =>
      unfold encontrarRuta at h1
      rw [ho, hd, if_neg (by decide : ¬ (true = false)), if_pos rfl] at h1
      exact absurd h1 (by simp)
    | true =>
      by_cases hne : origen = destino
      · unfold encontrarRuta at h1 h2
        rw [ho, hd, if_neg (by decide : ¬ (true = false)),
          if_neg (by decide : ¬ (true = false)), if_pos hne] at h1
        rw [ho, hd, if_neg (by decide : ¬ (true = false)),
          if_neg (by decide : ¬ (true = false)), if_pos hne] at h2
        have h1b : (Except.ok (⟨[origen], 0, "Sin movimiento", []⟩ : RutaResult) :
          Except RutaError RutaResult) = .ok r1 := h1
        have h2b : (Except.ok (⟨[origen], 0, "Sin movimiento", []⟩ : RutaResult) :
          Except RutaError RutaResult) = .ok r2 := h2
        rw [(Except.ok.inj h1b).symm, (Except.ok.inj h2b).symm]
        exact ⟨rfl, rfl⟩
      · by_cases hc1 : criterio = "costo"
        · subst hc1
          rw [encontrarRuta_costo g origen destino "dijkstra" ho hd hne] at h1
          rw [encontrarRuta_costo g origen destino "astar" ho hd hne] at h2
          exact ejecutar_dijkstra_astar g _ _ origen destino r1 r2 h1 h2
        · by_cases hc2 : criterio = "tiempo"
          · subst hc2
            rw [encontrarRuta_tiempo g origen destino "dijkstra" ho hd hne] at h1
            rw [encontrarRuta_tiempo g origen destino "astar" ho hd hne] at h2
            exact ejecutar_dijkstra_astar g _ _ origen destino r1 r2 h1 h2
          · by_cases hc3 : criterio = "distancia"
            · subst hc3
              rw [encontrarRuta_distancia g origen destino "dijkstra" ho hd hne] at h1
              rw [encontrarRuta_distancia g origen destino "astar" ho hd hne] at h2
              exact ejecutar_dijkstra_astar g _ _ origen destino r1 r2 h1 h2
            · by_cases hc4 : criterio = "combinado"
              · subst hc4
                rw [encontrarRuta_combinado g origen destino "dijkstra" ho hd hne] at h1
                rw [encontrarRuta_combinado g origen destino "astar" ho hd hne] at h2
                exact ejecutar_dijkstra_astar _ _ _ origen destino r1 r2 h1 h2
              · unfold encontrarRuta at h1
                rw [ho, hd, if_neg (by decide : ¬ (true = false)),
                  if_neg (by decide : ¬ (true = false)), if_neg hne,
                  if_neg hc1, if_neg hc2, if_neg hc3, if_neg hc4] at h1
                exact absurd h1 (by simp)

def resultadoC4 : RutaResult :=
  ⟨["A", "B", "C"], 8, "Tiempo total (min)",
   [⟨"1", "A", "B", "A", "B", 5, 2, some 0, "bus", 15⟩,
    ⟨"2", "B", "C", "B", "C", 3, 4, some 0, "bus", 15⟩]⟩

theorem c4_equivalencia_witness :
    resultadoC4.valor = resultadoC4.valor ∧ resultadoC4.camino = resultadoC4.camino :=
  c4_equivalencia grafoC1 "A" "C" "tiempo" resultadoC4 resultadoC4 (by decide) (by decide)

lemma getEdgeData_mem (g : Grafo) (u v : String) (e : EdgeData)
    (h : getEdgeData g u v = some e) : ∃ a b, (a, b, e) ∈ g.edges := by
  unfold getEdgeData at h
  cases hf : g.edges.find? (coincideArista u v) with
  | none => rw [hf] at h; cases h
  | some t =>
    rw [hf] at h
    have ht := List.mem_of_find?_eq_some hf
    obtain ⟨a, b, e0⟩ := t
    have h2 : some e0 = some e := h
    exact ⟨a, b, Option.some.inj h2 ▸ ht⟩

/-- Every edge of the graph produced by the "combinado" attachment
carries the composite value `0.5*tiempo + 0.3*costo + 0.2*distancia`
(distance taken as 0 when absent). -/
lemma atribuir_edges_formula (g : Grafo) : ∀ (u v : String) (e : EdgeData),
    (u, v, e) ∈ (atribuirCombinado g).edges →
    e.combinado = some (0.5 * e.tiempo + 0.3 * e.costo + 0.2 * e.distancia.getD 0) := by
  intro u v e h
  unfold atribuirCombinado at h
  simp only [List.mem_map] at h
  obtain ⟨t, ht, heq⟩ := h
  obtain ⟨a, b, e0⟩ := t
  have he :
      ({e0 with combinado := some (0.5 * e0.tiempo + 0.3 * e0.costo + 0.2 * e0.distancia.getD 0)} :
        EdgeData) = e :=
    congrArg (fun t : String × String × EdgeData => t.2.2) heq
  rw [← he]

/-- The search result depends on the weight function only through its
values on the edge records of the graph. -/
lemma dijkstraAux_congr (g : Grafo) (w1 w2 : EdgeData → Rat) (t : String)
    (hw : ∀ u v, esAdyacente g u v = true → w1 (aristaDatos g u v) = w2 (aristaDatos g u v)) :
    ∀ (fuel : Nat) (vis : List String) (front : List EntradaDijkstra),
    dijkstraAux g w1 t fuel vis front = dijkstraAux g w2 t fuel vis front := by
  intro fuel
  induction fuel with
  | zero => intro vis front; rfl
  | succ fuel ih =>
    intro vis front
    rw [dijkstraAux, dijkstraAux]
    cases hex : extractMinBy (fun e : EntradaDijkstra => e.1) front with
    | none => rfl
    | some pr =>
      obtain ⟨⟨d0, u0, p0⟩, resto⟩ := pr
      show (if u0 ∈ vis then dijkstraAux g w1 t fuel vis resto
            else if u0 = t then some (d0, p0)
            else dijkstraAux g w1 t fuel (u0 :: vis)
              (resto ++ (vecinos g u0).filterMap (fun v =>
                if v ∈ vis then none
                else some (d0 + w1 (aristaDatos g u0 v), v, p0 ++ [v])))) =
          (if u0 ∈ vis then dijkstraAux g w2 t fuel vis resto
            else if u0 = t then some (d0, p0)
            else dijkstraAux g w2 t fuel (u0 :: vis)
              (resto ++ (vecinos g u0).filterMap (fun v =>
                if v ∈ vis then none
                else some (d0 + w2 (aristaDatos g u0 v), v, p0 ++ [v]))))
      by_cases hv : u0 ∈ vis
      · rw [if_pos hv, if_pos hv]
        exact ih vis resto
      · rw [if_neg hv, if_neg hv]
        by_cases ht : u0 = t
        · rw [if_pos ht, if_pos ht]
        · rw [if_neg ht, if_neg ht]
          have hF : (vecinos g u0).filterMap (fun v =>
                if v ∈ vis then none
                else some (d0 + w1 (aristaDatos g u0 v), v, p0 ++ [v])) =
              (vecinos g u0).filterMap (fun v =>
                if v ∈ vis then none
                else some (d0 + w2 (aristaDatos g u0 v), v, p0 ++ [v])) := by
            refine List.filterMap_congr ?_
            intro v hvm
            by_cases hvv : v ∈ vis
            · rw [if_pos hvv, if_pos hvv]
            · rw [if_neg hvv, if_neg hvv,
                hw u0 v (esAdyacente_of_mem_vecinos g u0 v hvm)]
          rw [hF]
          exact ih (u0 :: vis) _

lemma buscarDijkstra_congr (g : Grafo) (w1 w2 : EdgeData → Rat) (origen destino : String)
    (hw : ∀ u v, esAdyacente g u v = true → w1 (aristaDatos g u v) = w2 (aristaDatos g u v)) :
    buscarDijkstra g w1 origen destino = buscarDijkstra g w2 origen destino :=
  dijkstraAux_congr g w1 w2 destino hw (combustible g) [] [(0, origen, [origen])]

/-- On the attached graph, reading the stored `combinado` value (with
the `networkx` default 1 for a missing attribute, which never fires
after the attachment) agrees with recomputing the composite formula. -/
lemma peso_combinado_atribuido (g : Grafo) :
    ∀ u v, esAdyacente (atribuirCombinado g) u v = true →
    (aristaDatos (atribuirCombinado g) u v).combinado.getD 1 =
      0.5 * (aristaDatos (atribuirCombinado g) u v).tiempo +
      0.3 * (aristaDatos (atribuirCombinado g) u v).costo +
      0.2 * (aristaDatos (atribuirCombinado g) u v).distancia.getD 0 := by
  intro u v hady
  unfold esAdyacente at hady
  obtain ⟨e, he⟩ := Option.isSome_iff_exists.mp hady
  obtain ⟨a, b, hmem⟩ := getEdgeData_mem _ u v e he
  have hf := atribuir_edges_formula g a b e hmem
  unfold aristaDatos
  rw [he]
  simp [hf]

/-- C3: a query with the "combinado" criterion between distinct existing
stations (i) leaves the graph with the combined value attached to every
edge, (ii) that attached value is `0.5*tiempo + 0.3*costo +
0.2*distancia` (0 for a missing distance) on every edge, and (iii) both
shortest-path searches driven by the attached attribute coincide with
the searches driven by the recomputed formula: the search uses the
attached value as the edge weight. -/
theorem c3_peso_combinado (g : Grafo) (origen destino algoritmo : String)
    (ho : validarEstacion g origen = true) (hd : validarEstacion g destino = true)
    (hne : origen ≠ destino) :
    (encontrarRuta g origen destino "combinado" algoritmo).2 = atribuirCombinado g ∧
    (∀ (u v : String) (e : EdgeData), (u, v, e) ∈ (atribuirCombinado g).edges →
      e.combinado = some (0.5 * e.tiempo + 0.3 * e.costo + 0.2 * e.distancia.getD 0)) ∧
    buscarDijkstra (atribuirCombinado g) (fun e => e.combinado.getD 1) origen destino =
      buscarDijkstra (atribuirCombinado g)
        (fun e => 0.5 * e.tiempo + 0.3 * e.costo + 0.2 * e.distancia.getD 0) origen destino ∧
    buscarAstar (atribuirCombinado g) (fun e => e.combinado.getD 1) (fun _ => 0)
        origen destino =
      buscarAstar (atribuirCombinado g)
        (fun e => 0.5 * e.tiempo + 0.3 * e.costo + 0.2 * e.distancia.getD 0) (fun _ => 0)
        origen destino := by
  have hw : ∀ u v, esAdyacente (atribuirCombinado g) u v = true →
      (aristaDatos (atribuirCombinado g) u v).combinado.getD 1 =
      0.5 * (aristaDatos (atribuirCombinado g) u v).tiempo +
      0.3 * (aristaDatos (atribuirCombinado g) u v).costo +
      0.2 * (aristaDatos (atribuirCombinado g) u v).distancia.getD 0 :=
    peso_combinado_atribuido g
  refine ⟨?_, atribuir_edges_formula g, ?_, ?_⟩
  · rw [encontrarRuta_combinado g origen destino algoritmo ho hd hne]
  · exact buscarDijkstra_congr _ _ _ origen destino hw
  · rw [buscarAstar_cero, buscarAstar_cero]
    exact buscarDijkstra_congr _ _ _ origen destino hw

theorem c3_peso_combinado_witness :
    (encontrarRuta grafoC1 "A" "C" "combinado" "dijkstra").2 = atribuirCombinado grafoC1 ∧
    (∀ (u v : String) (e : EdgeData), (u, v, e) ∈ (atribuirCombinado grafoC1).edges →
      e.combinado = some (0.5 * e.tiempo + 0.3 * e.costo + 0.2 * e.distancia.getD 0)) ∧
    buscarDijkstra (atribuirCombinado grafoC1) (fun e => e.combinado.getD 1) "A" "C" =
      buscarDijkstra (atribuirCombinado grafoC1)
        (fun e => 0.5 * e.tiempo + 0.3 * e.costo + 0.2 * e.distancia.getD 0) "A" "C" ∧
    buscarAstar (atribuirCombinado grafoC1) (fun e => e.combinado.getD 1) (fun _ => 0)
        "A" "C" =
      buscarAstar (atribuirCombinado grafoC1)
        (fun e => 0.5 * e.tiempo + 0.3 * e.costo + 0.2 * e.distancia.getD 0) (fun _ => 0)
        "A" "C" :=
  c3_peso_combinado grafoC1 "A" "C" "dijkstra" (by decide) (by decide) (by decide)

/-! C9: the per-segment sums of the decomposed route against the
accumulated total. -/

lemma detalles_suma (g : Grafo) (f : Segmento → Rat) (w : EdgeData → Rat)
    (hfw : ∀ (j : Nat) (o d : String) (e : EdgeData) (nO nD : String),
      getEdgeData g o d = some e →
      f ⟨toString (j + 1), o, d, nO, nD, e.tiempo, e.costo, e.distancia, e.medio,
         e.frecuencia⟩ = w e) :
    ∀ (camino : List String) (i : Nat) (dets : List Segmento),
    generarDetallesAux g camino i = some dets →
    (dets.map f).sum = pesoCamino g w camino := by
  intro camino
  induction camino with
  | nil =>
    intro i dets h
    have h2 : some ([] : List Segmento) = some dets := h
    rw [← Option.some.inj h2]
    simp
  | cons o rest ih =>
    cases rest with
    | nil =>
      intro i dets h
      have h2 : some ([] : List Segmento) = some dets := h
      rw [← Option.some.inj h2]
      simp
    | cons d resto =>
      intro i dets h
      rw [generarDetallesAux] at h
      cases hE : getEdgeData g o d with
      | none =>
        rw [hE] at h
        have h2 : (none : Option (List Segmento)) = some dets := h
        cases h2
      | some e =>
        rw [hE] at h
        cases hNO : nombreNodo g o with
        | none =>
          rw [hNO] at h
          have h2 : (none : Option (List Segmento)) = some dets := h
          cases h2
        | some nO =>
          rw [hNO] at h
          cases hND : nombreNodo g d with
          | none =>
            rw [hND] at h
            have h2 : (none : Option (List Segmento)) = some dets := h
            cases h2
          | some nD =>
            rw [hND] at h
            cases hR : generarDetallesAux g (d :: resto) (i + 1) with
            | none =>
              rw [hR] at h
              have h2 : (none : Option (List Segmento)) = some dets := h
              cases h2
            | some sig =>
              rw [hR] at h
              have h2 : some (⟨toString (i + 1), o, d, nO, nD, e.tiempo, e.costo,
                  e.distancia, e.medio, e.frecuencia⟩ :: sig) = some dets := h
              rw [← Option.some.inj h2]
              rw [List.map_cons, List.sum_cons, ih (i + 1) sig hR, pesoCamino_cons_cons]
              have ha : aristaDatos g o d = e := by
                unfold aristaDatos
                rw [hE]
                rfl
              rw [ha, hfw i o d e nO nD hE]

/-- Every edge record of the graph carries a stored `distancia`
attribute (as `_procesar_datos` always sets one). -/
def conDistancia (g : Grafo) : Prop :=
  ∀ u v e, (u, v, e) ∈ g.edges → e.distancia.isSome = true

lemma edges_asegurarNodo (g : Grafo) (id : String) :
    (asegurarNodo g id).edges = g.edges := by
  unfold asegurarNodo
  split <;> rfl

lemma edges_agregarNodo (g : Grafo) (id : String) (dat : NodeData) :
    (agregarNodo g id dat).edges = g.edges := by
  unfold agregarNodo
  split <;> rfl

lemma edges_agregarArista (g : Grafo) (u v : String) (dat : EdgeData) :
    (agregarArista g u v dat).edges =
      (if (asegurarNodo (asegurarNodo g u) v).edges.any (coincideArista u v) then
        (asegurarNodo (asegurarNodo g u) v).edges.map
          (fun t => if coincideArista u v t then (t.1, t.2.1, dat) else t)
      else (asegurarNodo (asegurarNodo g u) v).edges ++ [(u, v, dat)]) := by
  by_cases hc : (asegurarNodo (asegurarNodo g u) v).edges.any (coincideArista u v) = true <;>
    simp [agregarArista, hc]

lemma conDistancia_agregarArista (g : Grafo) (u v : String) (dat : EdgeData)
    (hg : conDistancia g) (hdat : dat.distancia.isSome = true) :
    conDistancia (agregarArista g u v dat) := by
  intro a b e he
  rw [edges_agregarArista, edges_asegurarNodo, edges_asegurarNodo] at he
  by_cases hc : g.edges.any (coincideArista u v) = true
  · rw [if_pos hc] at he
    rcases List.mem_map.mp he with ⟨t, ht, heq⟩
    by_cases hct : coincideArista u v t = true
    · rw [if_pos hct] at heq
      have hde : dat = e := congrArg (fun x : String × String × EdgeData => x.2.2) heq
      rw [← hde]
      exact hdat
    · rw [if_neg hct] at heq
      obtain ⟨a0, b0, e0⟩ := t
      have hde : e0 = e := congrArg (fun x : String × String × EdgeData => x.2.2) heq
      rw [← hde]
      exact hg a0 b0 e0 ht
  · rw [if_neg hc] at he
    rcases List.mem_append.mp he with he | he
    · exact hg a b e he
    · simp only [List.mem_singleton] at he
      have hde : e = dat := congrArg (fun x : String × String × EdgeData => x.2.2) he
      rw [hde]
      exact hdat

lemma edges_foldl_pasoEstacion : ∀ (l : List Estacion) (g : Grafo),
    (l.foldl pasoEstacion g).edges = g.edges := by
  intro l
  induction l with
  | nil => intro g; rfl
  | cons e l ih =>
    intro g
    rw [List.foldl_cons, ih]
    exact edges_agregarNodo g e.id _

lemma conDistancia_foldl : ∀ (l : List RutaRec) (g : Grafo),
    conDistancia g → conDistancia (l.foldl pasoRuta g) := by
  intro l
  induction l with
  | nil => intro g hg; exact hg
  | cons r l ih =>
    intro g hg
    rw [List.foldl_cons]
    exact ih _ (conDistancia_agregarArista g _ _ _ hg rfl)

lemma conDistancia_procesar (ests : List Estacion) (ruts : List RutaRec) :
    conDistancia (procesarDatos ests ruts) := by
  unfold procesarDatos
  refine conDistancia_foldl ruts _ ?_
  intro u v e he
  rw [edges_foldl_pasoEstacion] at he
  exact absurd he (List.not_mem_nil _)

lemma ejecutar_suma (g : Grafo) (w : EdgeData → Rat) (f : Segmento → Rat)
    (et origen destino algoritmo : String) (r : RutaResult)
    (hsum : ∀ (camino : List String) (i : Nat) (dets : List Segmento),
      generarDetallesAux g camino i = some dets → (dets.map f).sum = pesoCamino g w camino)
    (h : ejecutarAlgoritmo g w et origen destino algoritmo = .ok r) :
    (r.detalles.map f).sum = r.valor := by
  unfold ejecutarAlgoritmo at h
  by_cases ha : algoritmo = "dijkstra"
  · rw [if_pos ha] at h
    cases hb : buscarDijkstra g w origen destino with
    | none =>
      rw [hb] at h
      exact absurd h (by simp)
    | some pr =>
      obtain ⟨val, cam⟩ := pr
      rw [hb] at h
      have hh : (match generarDetallesRuta g cam with
        | none => Except.error RutaError.errorInesperado
        | some detalles => Except.ok (⟨cam, val, et, detalles⟩ : RutaResult)) = Except.ok r := h
      cases hdet : generarDetallesRuta g cam with
      | none =>
        rw [hdet] at hh
        exact absurd hh (by simp)
      | some dets =>
        rw [hdet] at hh
        rw [(Except.ok.inj hh).symm]
        show (dets.map f).sum = val
        rw [hsum cam 0 dets hdet]
        exact ((buscarDijkstra_sound g w origen destino val cam hb).2.2.2).symm
  · rw [if_neg ha] at h
    by_cases ha2 : algoritmo = "astar"
    · rw [if_pos ha2, buscarAstar_cero] at h
      cases hb : buscarDijkstra g w origen destino with
      | none =>
        rw [hb] at h
        exact absurd h (by simp)
      | some pr =>
        obtain ⟨val, cam⟩ := pr
        rw [hb] at h
        have hh : (match generarDetallesRuta g cam with
          | none => Except.error RutaError.errorInesperado
          | some detalles =>
              Except.ok (⟨cam, pesoCamino g w cam, et, detalles⟩ : RutaResult)) = Except.ok r := h
        cases hdet : generarDetallesRuta g cam with
        | none =>
          rw [hdet] at hh
          exact absurd hh (by simp)
        | some dets =>
          rw [hdet] at hh
          rw [(Except.ok.inj hh).symm]
          show (dets.map f).sum = pesoCamino g w cam
          exact hsum cam 0 dets hdet
    · rw [if_neg ha2] at h
      exact absurd h (by simp)

lemma encontrarRuta_suma_generico (g : Grafo) (origen destino crit algoritmo et : String)
    (w : EdgeData → Rat) (f : Segmento → Rat)
    (hdisp : validarEstacion g origen = true → validarEstacion g destino = true →
      origen ≠ destino →
      encontrarRuta g origen destino crit algoritmo =
        (ejecutarAlgoritmo g w et origen destino algoritmo, g))
    (hsum : ∀ (camino : List String) (i : Nat) (dets : List Segmento),
      generarDetallesAux g camino i = some dets → (dets.map f).sum = pesoCamino g w camino)
    (r : RutaResult) (h : (encontrarRuta g origen destino crit algoritmo).1 = .ok r) :
    (r.detalles.map f).sum = r.valor := by
  cases ho : validarEstacion g origen with
  | false =>
    unfold encontrarRuta at h
    rw [ho, if_pos rfl] at h
    exact absurd h (by simp)
  | true =>
    cases hd : validarEstacion g destino with
    | false =>
      unfold encontrarRuta at h
      rw [ho, hd, if_neg (by decide : ¬ (true = false)), if_pos rfl] at h
      exact absurd h (by simp)
    | true =>
      by_cases hne : origen = destino
      · unfold encontrarRuta at h
        rw [ho, hd, if_neg (by decide : ¬ (true = false)),
          if_neg (by decide : ¬ (true = false)), if_pos hne] at h
        have hb : (Except.ok (⟨[origen], 0, "Sin movimiento", []⟩ : RutaResult) :
          Except RutaError RutaResult) = .ok r := h
        rw [(Except.ok.inj hb).symm]
        simp
      · rw [hdisp ho hd hne] at h
        exact ejecutar_suma g w f et origen destino algoritmo r hsum h

/-- C9: on any graph built from station and route records, whenever a
query with criterion "tiempo" (resp. "costo", "distancia") succeeds, the
sum of the corresponding field over the SegmentDetail records of the
decomposed route equals the returned total value, for any algorithm
string. -/
theorem c9_suma_segmentos (ests : List Estacion) (ruts : List RutaRec)
    (origen destino algoritmo : String) :
    (∀ r : RutaResult,
      (encontrarRuta (procesarDatos ests ruts) origen destino "tiempo" algoritmo).1 = .ok r →
      (r.detalles.map (fun s => s.tiempo)).sum = r.valor) ∧
    (∀ r : RutaResult,
      (encontrarRuta (procesarDatos ests ruts) origen destino "costo" algoritmo).1 = .ok r →
      (r.detalles.map (fun s => s.costo)).sum = r.valor) ∧
    (∀ r : RutaResult,
      (encontrarRuta (procesarDatos ests ruts) origen destino "distancia" algoritmo).1 = .ok r →
      (r.detalles.map (fun s => s.distancia.getD 0)).sum = r.valor) := by
  refine ⟨?_, ?_, ?_⟩
  · intro r h
    refine encontrarRuta_suma_generico _ origen destino "tiempo" algoritmo "Tiempo total (min)"
      (fun e => e.tiempo) (fun s => s.tiempo)
      (fun ho hd hne => encontrarRuta_tiempo _ origen destino algoritmo ho hd hne) ?_ r h
    exact detalles_suma _ _ _ (fun j o d e nO nD hE => rfl)
  · intro r h
    refine encontrarRuta_suma_generico _ origen destino "costo" algoritmo "Costo total ($)"
      (fun e => e.costo) (fun s => s.costo)
      (fun ho hd hne => encontrarRuta_costo _ origen destino algoritmo ho hd hne) ?_ r h
    exact detalles_suma _ _ _ (fun j o d e nO nD hE => rfl)
  · intro r h
    refine encontrarRuta_suma_generico _ origen destino "distancia" algoritmo
      "Distancia total (km)" (fun e => e.distancia.getD 1) (fun s => s.distancia.getD 0)
      (fun ho hd hne => encontrarRuta_distancia _ origen destino algoritmo ho hd hne) ?_ r h
    refine detalles_suma _ _ _ ?_
    intro j o d e nO nD hE
    obtain ⟨a, b, hmem⟩ := getEdgeData_mem _ o d e hE
    have hs := conDistancia_procesar ests ruts a b e hmem
    obtain ⟨x, hx⟩ := Option.isSome_iff_exists.mp hs
    show e.distancia.getD 0 = e.distancia.getD 1
    rw [hx]
    rfl

theorem c9_suma_segmentos_witness :
    (resultadoC4.detalles.map (fun s => s.tiempo)).sum = resultadoC4.valor :=
  (c9_suma_segmentos estacionesC1 rutasC1 "A" "C" "dijkstra").1 resultadoC4 (by decide)
